import Mathlib

/-
Verification development for the basicOCR React Native application.

The repository contains two variants of the single component App:
the English-language variant src/App.js and the localized variant
src/unnamed/part_001 (Serbian messages, plus a scan-history feature).
Both share the same pipeline structure.  Definitions below are shallow
embeddings of the functions of those files; definitions suffixed with
Sr embed the part_001 variant where the two files differ.

Conventions of the embedding:
- JavaScript strings are Lean String; JS string truthiness (non-empty)
  and the || default operator are modelled by jsTruthyStr and jsOr.
- String.prototype.startsWith and the truthiness of String.prototype.trim
  are modelled by structurally recursive functions (jsBegins, isBlankStr)
  so that concrete runs reduce inside the kernel.
- Date.now() is a Nat parameter; its template-literal rendering is the
  decimal numeral function natDecimal.
- GPS coordinates are opaque to every claim (no arithmetic is performed
  on them), so the float64 fields are modelled as integers.
- Collaborator calls (Share.share, Clipboard.setString, CameraRoll.save,
  RNFS.writeFile, Geolocation.getCurrentPosition, TextRecognition.recognize)
  are modelled by their inputs/outputs; effect values record which
  collaborator a handler invokes.
-/

namespace BasicOCR

/-- Character-list version of JavaScript String.prototype.startsWith:
charsLead pre s is true when pre is an initial run of s. -/
def charsLead : List Char → List Char → Bool
  | [], _ => true
  | _ :: _, [] => false
  | p :: ps, c :: cs => p == c && charsLead ps cs

/-- JavaScript s.startsWith(pre), embedded structurally. -/
def jsBegins (s pre : String) : Bool :=
  charsLead pre.data s.data

/-- Truthiness of JavaScript s.trim(): s.trim() is falsy exactly when every
character of s is whitespace (in particular when s is empty). isBlankStr s
is true in that falsy case. -/
def isBlankStr (s : String) : Bool :=
  s.data.all fun c => c.isWhitespace

/-- JavaScript truthiness of an optional string: null/undefined and the
empty string are falsy. -/
def jsTruthyStr : Option String → Bool
  | none => false
  | some s => if s = "" then false else true

/-- JavaScript a || b for an optional string a with default b. -/
def jsOr (a : Option String) (b : String) : String :=
  match a with
  | none => b
  | some s => if s = "" then b else s

/-- Fuel-based little-endian decimal digit list; the fuel argument makes the
recursion structural so that concrete values reduce in the kernel. -/
def natDigitsRevAux : Nat → Nat → List Nat
  | _, 0 => []
  | 0, _ + 1 => []
  | fuel + 1, n + 1 => ((n + 1) % 10) :: natDigitsRevAux fuel ((n + 1) / 10)

/-- Little-endian decimal digits of n (empty for 0). -/
def natDigitsRev (n : Nat) : List Nat :=
  natDigitsRevAux n n

/-- Decimal digit d rendered as a character (48 is the code of the zero digit). -/
def digChar (d : Nat) : Char :=
  Char.ofNat (48 + d)

/-- Decimal numeral of n, as produced by a JavaScript template literal for an
integer (no sign, no leading zeros). -/
def natDecimal (n : Nat) : String :=
  if n = 0 then "0" else List.asString ((natDigitsRev n).reverse.map digChar)

/-- Image provenance: imageSource is set to the string camera or gallery. -/
inductive Provenance
  | camera
  | gallery
deriving DecidableEq, Repr

/-- Geographic fix; the two float64 fields are opaque to all claims and are
modelled as integers. -/
structure Coord where
  latitude : Int
  longitude : Int
deriving DecidableEq, Repr

/-- Platform.OS of react-native, as tested by the source. -/
inductive Platform
  | android
  | ios
deriving DecidableEq, Repr

/-- Outcome reported by Geolocation.getCurrentPosition: it invokes either the
success callback with a position or the error callback. -/
inductive GeoResult
  | success (position : Coord)
  | failure
deriving DecidableEq, Repr

/-- Outcome of await TextRecognition.recognize(uri): either it returns a
result object (whose text field may be missing or empty, collapsed here into
Option String) or it throws an error carrying an optional message. -/
inductive RecognizerResult
  | ok (text : Option String)
  | error (message : Option String)
deriving DecidableEq, Repr

/-- Options object passed to Geolocation.getCurrentPosition. -/
structure GeoOptions where
  enableHighAccuracy : Bool
  timeout : Nat
  maximumAge : Nat
deriving DecidableEq, Repr

/-- The literal options of the source: enableHighAccuracy true,
timeout 10000 ms, maximumAge 10000 ms. -/
def geoOptions : GeoOptions :=
  { enableHighAccuracy := true, timeout := 10000, maximumAge := 10000 }

/-- The complete useState state of the App component of src/App.js: the seven
state variables, in source order.  No other component state exists; in
particular there is no generation counter or cancellation token. -/
structure AppState where
  imageUri : Option String
  imageSource : Option Provenance
  extractedText : String
  location : Option Coord
  loading : Bool
  saveStatus : Option String
  copyStatus : Option String
deriving DecidableEq, Repr

/-- The useState initial values of the component. -/
def initialState : AppState :=
  { imageUri := none, imageSource := none, extractedText := "", location := none,
    loading := false, saveStatus := none, copyStatus := none }

/-- The six setter calls that open handleTakePhoto and handleSelectFromGallery:
setSaveStatus(null); setCopyStatus(null); setExtractedText(null-string);
setLocation(null); setImageUri(null); setImageSource(null). -/
def resetAcquisitionState (st : AppState) : AppState :=
  { st with saveStatus := none, copyStatus := none, extractedText := "",
            location := none, imageUri := none, imageSource := none }

/-- Placeholder text stored when no text is detected (src/App.js). -/
def noTextMessage : String := "No text detected."

/-- Failure text head stored when recognition throws (src/App.js). -/
def ocrFailedHead : String := "OCR failed: "

/-- Placeholder text stored when no text is detected (part_001, localized). -/
def noTextMessageSr : String := "Nije pronađen tekst."

/-- Failure text head stored when recognition throws (part_001, localized). -/
def ocrFailedHeadSr : String := "OCR nije uspeo: "

/-- Step 2 of processImageAndLocation in src/App.js: the string stored by
setExtractedText as a function of the recognizer outcome.
if (result and result.text) then (result.text.trim() ? result.text :
no-text placeholder) else no-text placeholder; on throw the failure head
concatenated with (err.message || the unknown-error default). -/
def extractedTextOfOcr (r : RecognizerResult) : String :=
  match r with
  | RecognizerResult.ok t =>
      if jsTruthyStr t then
        (if isBlankStr (t.getD "") then noTextMessage else t.getD "")
      else noTextMessage
  | RecognizerResult.error m => ocrFailedHead ++ jsOr m "Unknown error"

/-- Same branching as extractedTextOfOcr but with the localized strings of
part_001 (lines 269-278 there). -/
def extractedTextOfOcrSr (r : RecognizerResult) : String :=
  match r with
  | RecognizerResult.ok t =>
      if jsTruthyStr t then
        (if isBlankStr (t.getD "") then noTextMessageSr else t.getD "")
      else noTextMessageSr
  | RecognizerResult.error m => ocrFailedHeadSr ++ jsOr m "Unknown error"

/-- The three-case recognition outcome of the specification data model. -/
inductive RecognitionOutcome
  | recognized (text : String)
  | empty
  | failed (reason : String)
deriving DecidableEq, Repr

/-- Modelled from the spec: the classification of a recognition attempt —
non-blank returned text gives Recognized(text), a missing or blank text gives
Empty, a throwing invocation gives Failed(reason) with the thrown message (or
the unknown-error default) as reason.  Used to compare the source's string
resolution against the specification's sum type. -/
def specOutcome (r : RecognizerResult) : RecognitionOutcome :=
  match r with
  | RecognizerResult.ok t =>
      if jsTruthyStr t && !(isBlankStr (t.getD "")) then
        RecognitionOutcome.recognized (t.getD "")
      else RecognitionOutcome.empty
  | RecognizerResult.error m => RecognitionOutcome.failed (jsOr m "Unknown error")

/-- How a JavaScript Promise settles. -/
inductive PromiseSettle
  | resolved
  | rejected
deriving DecidableEq, Repr

/-- The executor of the promise wrapped around Geolocation.getCurrentPosition
(src/App.js lines 245-261): the success callback stores the fix and calls
resolve(); the error callback stores null and also calls resolve(); reject is
never called on either path.  The second component is the value passed to
setLocation by the invoked callback. -/
def geoPromiseRun : GeoResult → PromiseSettle × Option Coord
  | GeoResult.success c => (PromiseSettle.resolved, some c)
  | GeoResult.failure => (PromiseSettle.resolved, none)

/-- Observable steps of one processImageAndLocation run, in execution order. -/
inductive Event
  | setLoadingTrue
  | clearText
  | clearLocation
  | locCapabilityRequested
  | geoQueryStarted
  | geoSettled
  | ocrStarted
  | ocrSettled
  | setLoadingFalse
deriving DecidableEq, Repr

/-- Final state contribution of one processImageAndLocation run.  The alert
field records any Alert.alert raised inside the run; the source raises none
there (every failure path only stores state). -/
structure RunResult where
  location : Option Coord
  extractedText : String
  alert : Option String
deriving DecidableEq, Repr

/-- Step 1 of processImageAndLocation: on android the location capability is
requested; denial throws, the catch stores null and the query is skipped.
Otherwise (grant, or ios where the OS prompt is left to the service) the
wrapped Geolocation.getCurrentPosition query runs and settles. -/
def locationPhase (p : Platform) (locGranted : Bool) (geo : GeoResult) :
    List Event × Option Coord :=
  match p with
  | Platform.android =>
      if locGranted then
        ([Event.locCapabilityRequested, Event.geoQueryStarted, Event.geoSettled],
         (geoPromiseRun geo).2)
      else ([Event.locCapabilityRequested], none)
  | Platform.ios =>
      ([Event.geoQueryStarted, Event.geoSettled], (geoPromiseRun geo).2)

/-- Whether the positioning query is reached at all (it is skipped exactly when
the android capability request is denied). -/
def geoQueried (p : Platform) (locGranted : Bool) : Bool :=
  match p with
  | Platform.android => locGranted
  | Platform.ios => true

/-- processImageAndLocation of src/App.js (lines 222-278): set loading, clear
text and location, run the location phase to completion, then run OCR, then
clear loading.  The trace lists the steps in their execution order; the
result holds the finally stored location and extracted text. -/
def processImageAndLocation (p : Platform) (locGranted : Bool) (geo : GeoResult)
    (r : RecognizerResult) : List Event × RunResult :=
  ([Event.setLoadingTrue, Event.clearText, Event.clearLocation] ++
     (locationPhase p locGranted geo).1 ++
     [Event.ocrStarted, Event.ocrSettled, Event.setLoadingFalse],
   { location := (locationPhase p locGranted geo).2,
     extractedText := extractedTextOfOcr r,
     alert := none })

/-- One element of the scan history of part_001 (line 100 there):
an object with imageUri, extractedText, location, timestamp. -/
structure HistoryEntry where
  imageUri : String
  extractedText : String
  location : Option Coord
  timestamp : Nat
deriving DecidableEq, Repr

/-- Final state contribution of one processImageAndLocation run of part_001,
including the history entry it pushes. -/
structure RunResultSr where
  location : Option Coord
  extractedText : String
  historyEntry : HistoryEntry
deriving DecidableEq, Repr

/-- processImageAndLocation of part_001 (lines 224-291).  stateText and
stateLoc are the values of the extractedText and location state variables as
captured by the closure of the function: calling setExtractedText or
setLocation inside the run does not change these captured bindings.  The
history entry pushed at lines 282-290 reads exactly those captured bindings
(the state variables extractedText and location), not the values the same run
just computed; now stands for the entry timestamp taken at push time. -/
def processImageAndLocationSr (uri : String) (stateText : String)
    (stateLoc : Option Coord) (p : Platform) (locGranted : Bool)
    (geo : GeoResult) (r : RecognizerResult) (now : Nat) : RunResultSr :=
  { location := (locationPhase p locGranted geo).2,
    extractedText := extractedTextOfOcrSr r,
    historyEntry :=
      { imageUri := uri, extractedText := stateText, location := stateLoc,
        timestamp := now } }

/-- Response delivered to the launchCamera / launchImageLibrary callback:
cancellation, an error code with optional message, a non-empty assets array
(its first element's uri), or a response with no usable assets. -/
inductive ChooserResponse
  | cancelled
  | error (code : String) (message : Option String)
  | assets (uri : String)
  | noAssets
deriving DecidableEq, Repr

/-- Observable steps of an acquisition handler, in execution order. -/
inductive AcqStep
  | clearedState
  | capabilityRequested
  | chooserInvoked
  | alertShown (title : String) (message : String)
  | processingStarted (uri : String)
deriving DecidableEq, Repr

/-- Terminal phase of an acquisition in the specification's state machine,
read off the branch the handler ends in: a capability denial ends in
AcquisitionFailed; cancellation, a chooser error and an empty response return
to Idle; a produced asset hands the uri to the Orchestrator. -/
inductive AcqPhase
  | idle
  | acquisitionFailed
  | processing (uri : String)
deriving DecidableEq, Repr

/-- Index of the first occurrence of an element in a list. -/
def firstIdx {α : Type} [DecidableEq α] (e : α) : List α → Option Nat
  | [] => none
  | x :: xs => if x = e then some 0 else (firstIdx e xs).map (· + 1)

/-- eventBefore a b tr is true when both a and b occur in tr and the first
occurrence of a is strictly before the first occurrence of b. -/
def eventBefore {α : Type} [DecidableEq α] (a b : α) (tr : List α) : Bool :=
  match firstIdx a tr, firstIdx b tr with
  | some i, some j => i < j
  | _, _ => false

/-- The launchCamera callback of handleTakePhoto (src/App.js lines 159-171):
cancellation returns silently; an error code raises the camera-error alert;
a non-empty assets array stores the uri and provenance and starts processing. -/
def cameraChooserRun (st : AppState) (resp : ChooserResponse) :
    List AcqStep × AppState × AcqPhase :=
  match resp with
  | ChooserResponse.cancelled => ([AcqStep.chooserInvoked], st, AcqPhase.idle)
  | ChooserResponse.error _ msg =>
      ([AcqStep.chooserInvoked,
        AcqStep.alertShown "Camera Error" (jsOr msg "Unknown error")],
       st, AcqPhase.idle)
  | ChooserResponse.assets uri =>
      ([AcqStep.chooserInvoked, AcqStep.processingStarted uri],
       { st with imageUri := some uri, imageSource := some Provenance.camera },
       AcqPhase.processing uri)
  | ChooserResponse.noAssets => ([AcqStep.chooserInvoked], st, AcqPhase.idle)

/-- handleTakePhoto of src/App.js (lines 129-173): clear all prior pipeline
state; on android request the camera capability and, on denial, alert and
return without launching the camera; otherwise launch the camera chooser. -/
def handleTakePhoto (st : AppState) (p : Platform) (cameraGranted : Bool)
    (resp : ChooserResponse) : List AcqStep × AppState × AcqPhase :=
  let st1 := resetAcquisitionState st
  match p with
  | Platform.android =>
      if cameraGranted then
        let r := cameraChooserRun st1 resp
        (AcqStep.clearedState :: AcqStep.capabilityRequested :: r.1, r.2)
      else
        ([AcqStep.clearedState, AcqStep.capabilityRequested,
          AcqStep.alertShown "Permission Denied" "Camera permission is required."],
         st1, AcqPhase.acquisitionFailed)
  | Platform.ios =>
      let r := cameraChooserRun st1 resp
      (AcqStep.clearedState :: r.1, r.2)

/-- The launchImageLibrary callback of handleSelectFromGallery (src/App.js
lines 205-217), identical in shape to the camera callback but with gallery
provenance and the gallery-error alert. -/
def galleryChooserRun (st : AppState) (resp : ChooserResponse) :
    List AcqStep × AppState × AcqPhase :=
  match resp with
  | ChooserResponse.cancelled => ([AcqStep.chooserInvoked], st, AcqPhase.idle)
  | ChooserResponse.error _ msg =>
      ([AcqStep.chooserInvoked,
        AcqStep.alertShown "Gallery Error" (jsOr msg "Unknown error")],
       st, AcqPhase.idle)
  | ChooserResponse.assets uri =>
      ([AcqStep.chooserInvoked, AcqStep.processingStarted uri],
       { st with imageUri := some uri, imageSource := some Provenance.gallery },
       AcqPhase.processing uri)
  | ChooserResponse.noAssets => ([AcqStep.chooserInvoked], st, AcqPhase.idle)

/-- handleSelectFromGallery of src/App.js (lines 176-219): clear all prior
pipeline state; on android request the media-read capability and, on denial,
alert and return without launching the library; otherwise launch the library
chooser. -/
def handleSelectFromGallery (st : AppState) (p : Platform)
    (storageGranted : Bool) (resp : ChooserResponse) :
    List AcqStep × AppState × AcqPhase :=
  let st1 := resetAcquisitionState st
  match p with
  | Platform.android =>
      if storageGranted then
        let r := galleryChooserRun st1 resp
        (AcqStep.clearedState :: AcqStep.capabilityRequested :: r.1, r.2)
      else
        ([AcqStep.clearedState, AcqStep.capabilityRequested,
          AcqStep.alertShown "Permission Denied" "Storage permission is required."],
         st1, AcqPhase.acquisitionFailed)
  | Platform.ios =>
      let r := galleryChooserRun st1 resp
      (AcqStep.clearedState :: r.1, r.2)

/-- The common guard of handleShareText, handleCopyText and
handleSaveTextToFile in both variants:
if (!extractedText || extractedText.startsWith(no-text-head) ||
extractedText.startsWith(ocr-failed-head)) return.  The tested string heads
are the English ones in both files. -/
def textActionAllowed (extractedText : String) : Bool :=
  (if extractedText = "" then false else true) &&
    !(jsBegins extractedText "No text") && !(jsBegins extractedText "OCR failed")

/-- Effect of one handleShareText call. -/
inductive ShareEffect
  | noop
  | shareInvoked (message : String)
deriving DecidableEq, Repr

/-- handleShareText (src/App.js lines 311-318, part_001 lines 324-331): if the
guard passes, Share.share is invoked with the extracted text. -/
def handleShareText (extractedText : String) : ShareEffect :=
  if textActionAllowed extractedText then ShareEffect.shareInvoked extractedText
  else ShareEffect.noop

/-- Effect of one handleCopyText call. -/
inductive CopyEffect
  | noop
  | copyInvoked (message : String)
deriving DecidableEq, Repr

/-- handleCopyText (src/App.js lines 321-326): if the guard passes,
Clipboard.setString is invoked with the extracted text. -/
def handleCopyText (extractedText : String) : CopyEffect :=
  if textActionAllowed extractedText then CopyEffect.copyInvoked extractedText
  else CopyEffect.noop

/-- Effect of one handleSavePhoto call. -/
inductive PersistEffect
  | noop
  | denied
  | saveInvoked (uri : String)
deriving DecidableEq, Repr

/-- handleSavePhoto (src/App.js lines 281-308): a no-op unless an image is
present with camera provenance; on android a denied write capability alerts
without saving; otherwise CameraRoll.save is invoked with the image uri.
The recognition outcome is not consulted anywhere in this handler. -/
def handleSavePhoto (imageUri : Option String) (imageSource : Option Provenance)
    (p : Platform) (writeGranted : Bool) : PersistEffect :=
  match imageUri with
  | none => PersistEffect.noop
  | some uri =>
      if imageSource = some Provenance.camera then
        match p with
        | Platform.android =>
            if writeGranted then PersistEffect.saveInvoked uri
            else PersistEffect.denied
        | Platform.ios => PersistEffect.saveInvoked uri
      else PersistEffect.noop

/-- One RNFS.writeFile call: target path, content, encoding argument. -/
structure FileWrite where
  path : String
  content : String
  encoding : String
deriving DecidableEq, Repr

/-- The export file name of handleSaveTextToFile (src/App.js line 351). -/
def exportFileName (now : Nat) : String :=
  "ocr_result_" ++ natDecimal now ++ ".txt"

/-- Directory resolution of handleSaveTextToFile (src/App.js lines 335-350):
the document directory by default; on android with an available download
directory the write capability is requested and, on denial, the handler
alerts and returns without writing (none). -/
def exportDir (p : Platform) (docDir : String) (downloadDir : Option String)
    (writeGranted : Bool) : Option String :=
  match p with
  | Platform.ios => some docDir
  | Platform.android =>
      match downloadDir with
      | none => some docDir
      | some dl => if writeGranted then some dl else none

/-- handleSaveTextToFile (src/App.js lines 329-359): if the text guard passes
and a directory is resolved, RNFS.writeFile is invoked on
dir/ocr_result_(Date.now()).txt with the extracted text and utf8 encoding. -/
def handleSaveTextToFile (p : Platform) (docDir : String)
    (downloadDir : Option String) (writeGranted : Bool)
    (extractedText : String) (now : Nat) : Option FileWrite :=
  if textActionAllowed extractedText then
    match exportDir p docDir downloadDir writeGranted with
    | some dir =>
        some { path := dir ++ "/" ++ exportFileName now,
               content := extractedText, encoding := "utf8" }
    | none => none
  else none

/-- State-mutating events that can interleave across acquisitions: the reset
that opens a new acquisition, and the two geolocation callbacks of a (possibly
superseded) earlier run.  The callbacks of src/App.js lines 247-258 call
setLocation unconditionally; no field of AppState distinguishes which
acquisition a callback belongs to. -/
inductive RaceEvent
  | newAcquisitionReset
  | geoSuccessCallback (position : Coord)
  | geoErrorCallback
deriving DecidableEq, Repr

/-- Effect of one interleaved event on the component state, exactly as the
source applies it. -/
def applyRaceEvent (st : AppState) : RaceEvent → AppState
  | RaceEvent.newAcquisitionReset => resetAcquisitionState st
  | RaceEvent.geoSuccessCallback c => { st with location := some c }
  | RaceEvent.geoErrorCallback => { st with location := none }

/-! Helper lemmas: the decimal numeral function is injective, hence export
paths built from distinct timestamps are distinct. -/

theorem natDigitsRevAux_congr :
    ∀ f1 f2 n : Nat, n ≤ f1 → n ≤ f2 →
      natDigitsRevAux f1 n = natDigitsRevAux f2 n := by
  intro f1
  induction f1 with
  | zero =>
      intro f2 n h1 _
      have hn : n = 0 := Nat.le_zero.mp h1
      subst hn
      cases f2 <;> rfl
  | succ f ih =>
      intro f2 n h1 h2
      cases n with
      | zero => cases f2 <;> rfl
      | succ m =>
          cases f2 with
          | zero => exact absurd h2 (Nat.not_succ_le_zero m)
          | succ f2p =>
              show ((m + 1) % 10) :: natDigitsRevAux f ((m + 1) / 10) =
                   ((m + 1) % 10) :: natDigitsRevAux f2p ((m + 1) / 10)
              have hd : (m + 1) / 10 < m + 1 :=
                Nat.div_lt_self (Nat.succ_pos m) (by decide)
              exact congrArg _ (ih f2p ((m + 1) / 10) (by omega) (by omega))

theorem natDigitsRev_succ (n : Nat) :
    natDigitsRev (n + 1) = ((n + 1) % 10) :: natDigitsRev ((n + 1) / 10) := by
  have hd : (n + 1) / 10 < n + 1 := Nat.div_lt_self (Nat.succ_pos n) (by decide)
  show ((n + 1) % 10) :: natDigitsRevAux n ((n + 1) / 10) = _
  exact congrArg _
    (natDigitsRevAux_congr n ((n + 1) / 10) ((n + 1) / 10) (by omega) (Nat.le_refl _))

theorem natDigitsRev_eq_nil (n : Nat) (h : natDigitsRev n = []) : n = 0 := by
  cases n with
  | zero => rfl
  | succ m => rw [natDigitsRev_succ] at h; exact absurd h (List.cons_ne_nil _ _)

theorem natDigitsRev_lt_ten :
    ∀ n : Nat, ∀ d ∈ natDigitsRev n, d < 10 := by
  intro n
  induction n using Nat.strong_induction_on with
  | _ n ih =>
      cases n with
      | zero => intro d hd; exact absurd hd (List.not_mem_nil d)
      | succ m =>
          intro d hd
          rw [natDigitsRev_succ] at hd
          rcases List.mem_cons.mp hd with h | h
          · subst h; exact Nat.mod_lt _ (by decide)
          · exact ih ((m + 1) / 10) (Nat.div_lt_self (Nat.succ_pos m) (by decide)) d h

theorem natDigitsRev_inj :
    ∀ m n : Nat, natDigitsRev m = natDigitsRev n → m = n := by
  intro m
  induction m using Nat.strong_induction_on with
  | _ m ih =>
      intro n h
      cases m with
      | zero =>
          cases n with
          | zero => rfl
          | succ k => rw [natDigitsRev_succ] at h; exact List.noConfusion h
      | succ j =>
          cases n with
          | zero => rw [natDigitsRev_succ] at h; exact List.noConfusion h
          | succ k =>
              rw [natDigitsRev_succ, natDigitsRev_succ] at h
              injection h with h1 h2
              have hdiv := ih ((j + 1) / 10)
                (Nat.div_lt_self (Nat.succ_pos j) (by decide)) ((k + 1) / 10) h2
              omega

theorem digChar_inj_lt :
    ∀ d1 : Nat, d1 < 10 → ∀ d2 : Nat, d2 < 10 → digChar d1 = digChar d2 → d1 = d2 := by
  decide

theorem map_digChar_inj :
    ∀ l1 l2 : List Nat, (∀ d ∈ l1, d < 10) → (∀ d ∈ l2, d < 10) →
      l1.map digChar = l2.map digChar → l1 = l2 := by
  intro l1
  induction l1 with
  | nil =>
      intro l2 _ _ h
      cases l2 with
      | nil => rfl
      | cons b bs => exact List.noConfusion h
  | cons a as ih =>
      intro l2 hb1 hb2 h
      cases l2 with
      | nil => exact List.noConfusion h
      | cons b bs =>
          simp only [List.map] at h
          injection h with h1 h2
          have ha : a < 10 := hb1 a (List.mem_cons_self a as)
          have hbb : b < 10 := hb2 b (List.mem_cons_self b bs)
          have hab := digChar_inj_lt a ha b hbb h1
          subst hab
          have htl := ih bs (fun d hd => hb1 d (List.mem_cons_of_mem _ hd))
            (fun d hd => hb2 d (List.mem_cons_of_mem _ hd)) h2
          rw [htl]

theorem asString_inj (l1 l2 : List Char)
    (h : List.asString l1 = List.asString l2) : l1 = l2 :=
  congrArg String.data h

theorem natDigitsRev_ne_single_zero (n : Nat) (hn : n ≠ 0) :
    natDigitsRev n ≠ [0] := by
  cases n with
  | zero => exact absurd rfl hn
  | succ k =>
      rw [natDigitsRev_succ]
      intro h
      injection h with h1 h2
      have h3 := natDigitsRev_eq_nil _ h2
      omega

theorem natDecimal_inj : ∀ m n : Nat, natDecimal m = natDecimal n → m = n := by
  have zero_case : ∀ n : Nat, n ≠ 0 → natDecimal n ≠ "0" := by
    intro n hn h
    unfold natDecimal at h
    rw [if_neg hn] at h
    have hd : (natDigitsRev n).reverse.map digChar = ['0'] := by
      have := congrArg String.data h
      simpa [List.asString] using this
    have hrev : (natDigitsRev n).reverse = [0] := by
      apply map_digChar_inj
      · intro d hdm
        exact natDigitsRev_lt_ten n d (List.mem_reverse.mp hdm)
      · intro d hdm
        rcases List.mem_singleton.mp hdm with rfl
        decide
      · rw [hd]; rfl
    have hlist : natDigitsRev n = [0] := by
      have := congrArg List.reverse hrev
      simpa using this
    exact natDigitsRev_ne_single_zero n hn hlist
  intro m n h
  by_cases hm : m = 0 <;> by_cases hn : n = 0
  · rw [hm, hn]
  · subst hm
    exact absurd h.symm (zero_case n hn)
  · subst hn
    exact absurd h (zero_case m hm)
  · unfold natDecimal at h
    rw [if_neg hm, if_neg hn] at h
    have hd := asString_inj _ _ h
    have hrev := map_digChar_inj _ _
      (fun d hdm => natDigitsRev_lt_ten m d (List.mem_reverse.mp hdm))
      (fun d hdm => natDigitsRev_lt_ten n d (List.mem_reverse.mp hdm)) hd
    have hlist : natDigitsRev m = natDigitsRev n := by
      have := congrArg List.reverse hrev
      simpa using this
    exact natDigitsRev_inj m n hlist

theorem exportPath_inj (dir : String) (t1 t2 : Nat)
    (h : dir ++ "/" ++ exportFileName t1 = dir ++ "/" ++ exportFileName t2) :
    t1 = t2 := by
  have hdata := congrArg String.data h
  rw [String.data_append, String.data_append, String.data_append,
    String.data_append] at hdata
  have hfile : (exportFileName t1).data = (exportFileName t2).data := by
    rw [List.append_assoc, List.append_assoc] at hdata
    exact List.append_cancel_left (List.append_cancel_left hdata)
  unfold exportFileName at hfile
  rw [String.data_append, String.data_append, String.data_append,
    String.data_append] at hfile
  have hnum : (natDecimal t1).data = (natDecimal t2).data := by
    rw [List.append_assoc, List.append_assoc] at hfile
    have := List.append_cancel_left hfile
    exact List.append_cancel_right this
  exact natDecimal_inj t1 t2 (String.ext hnum)

/-! Claim theorems. -/

/-- C1 (code bug witnessed): in part_001 a blank recognizer result stores the
localized placeholder, which the specification classifies as the Empty
outcome; yet the shared action-gate guard tests the English string heads, so
handleShareText and handleCopyText invoke their collaborators on that Empty
record (likewise on a Failed record carrying the localized failure text), and
handleSavePhoto never consults the recognition outcome at all, invoking
CameraRoll.save on a camera image regardless of Empty or Failed text.  The
last two conjuncts show the English variant's own messages are gated
correctly, locating the slip in the unlocalized guard strings. -/
theorem c1_gate_bypassed_on_localized_outcomes :
    extractedTextOfOcrSr (RecognizerResult.ok (some " ")) = noTextMessageSr ∧
    specOutcome (RecognizerResult.ok (some " ")) = RecognitionOutcome.empty ∧
    textActionAllowed noTextMessageSr = true ∧
    handleShareText noTextMessageSr = ShareEffect.shareInvoked noTextMessageSr ∧
    handleCopyText noTextMessageSr = CopyEffect.copyInvoked noTextMessageSr ∧
    extractedTextOfOcrSr (RecognizerResult.error (some "greska")) =
      "OCR nije uspeo: greska" ∧
    specOutcome (RecognizerResult.error (some "greska")) =
      RecognitionOutcome.failed "greska" ∧
    handleShareText "OCR nije uspeo: greska" =
      ShareEffect.shareInvoked "OCR nije uspeo: greska" ∧
    handleShareText noTextMessage = ShareEffect.noop ∧
    handleShareText (ocrFailedHead ++ "x") = ShareEffect.noop ∧
    handleSavePhoto (some "file:cam.jpg") (some Provenance.camera) Platform.ios
      true = PersistEffect.saveInvoked "file:cam.jpg" := by
  decide

/-- C2 (confirmed): for every recognizer result the stored text corresponds to
exactly one of the three specification outcomes, and the correspondence is the
one the spec states: a returned non-blank text is Recognized with that text
stored verbatim, a missing or blank text is Empty with the placeholder stored,
and a throwing invocation is Failed with the thrown reason (or the default)
recorded after the failure head.  specOutcome is a total function into a
three-constructor sum, so the resolution is never left pending and the three
cases are mutually exclusive. -/
theorem c2_outcome_trichotomy (r : RecognizerResult) :
    (∃ t, r = RecognizerResult.ok (some t) ∧ t ≠ "" ∧ isBlankStr t = false ∧
      specOutcome r = RecognitionOutcome.recognized t ∧
      extractedTextOfOcr r = t) ∨
    (specOutcome r = RecognitionOutcome.empty ∧
      extractedTextOfOcr r = noTextMessage ∧
      extractedTextOfOcrSr r = noTextMessageSr) ∨
    (∃ m, r = RecognizerResult.error m ∧
      specOutcome r = RecognitionOutcome.failed (jsOr m "Unknown error") ∧
      extractedTextOfOcr r = ocrFailedHead ++ jsOr m "Unknown error") := by
  cases r with
  | ok t =>
      cases t with
      | none =>
          right; left
          exact ⟨rfl, rfl, rfl⟩
      | some s =>
          by_cases hs : s = ""
          · subst hs
            right; left
            exact ⟨rfl, rfl, rfl⟩
          · by_cases hb : isBlankStr s = true
            · right; left
              refine ⟨?_, ?_, ?_⟩ <;>
                simp [specOutcome, extractedTextOfOcr, extractedTextOfOcrSr,
                  jsTruthyStr, hs, hb]
            · left
              refine ⟨s, rfl, hs, Bool.eq_false_iff.mpr hb, ?_, ?_⟩ <;>
                simp [specOutcome, extractedTextOfOcr, jsTruthyStr, hs,
                  Bool.eq_false_iff.mpr hb]
  | error m =>
      right; right
      exact ⟨m, rfl, rfl, rfl⟩

/-- C2 witness: the trichotomy evaluated at a concrete recognized text. -/
theorem c2_outcome_trichotomy_witness :
    (∃ t, RecognizerResult.ok (some "INVOICE") = RecognizerResult.ok (some t) ∧
      t ≠ "" ∧ isBlankStr t = false ∧
      specOutcome (RecognizerResult.ok (some "INVOICE")) =
        RecognitionOutcome.recognized t ∧
      extractedTextOfOcr (RecognizerResult.ok (some "INVOICE")) = t) ∨
    (specOutcome (RecognizerResult.ok (some "INVOICE")) =
        RecognitionOutcome.empty ∧
      extractedTextOfOcr (RecognizerResult.ok (some "INVOICE")) =
        noTextMessage ∧
      extractedTextOfOcrSr (RecognizerResult.ok (some "INVOICE")) =
        noTextMessageSr) ∨
    (∃ m, RecognizerResult.ok (some "INVOICE") = RecognizerResult.error m ∧
      specOutcome (RecognizerResult.ok (some "INVOICE")) =
        RecognitionOutcome.failed (jsOr m "Unknown error") ∧
      extractedTextOfOcr (RecognizerResult.ok (some "INVOICE")) =
        ocrFailedHead ++ jsOr m "Unknown error") :=
  c2_outcome_trichotomy (RecognizerResult.ok (some "INVOICE"))

/-- C3 (code bug witnessed): the component state carries no generation counter
or cancellation token (AppState is the complete useState state), and the
geolocation callbacks store their result unconditionally; so after a new
acquisition has reset the state, a success callback still pending from the
superseded run overwrites the new acquisition's location with the stale fix. -/
theorem c3_stale_callback_overwrites_new_acquisition :
    (applyRaceEvent
        { imageUri := some "file:run1.jpg", imageSource := some Provenance.camera,
          extractedText := "", location := none, loading := true,
          saveStatus := none, copyStatus := none }
        RaceEvent.newAcquisitionReset).location = none ∧
    (applyRaceEvent
        (applyRaceEvent
          { imageUri := some "file:run1.jpg",
            imageSource := some Provenance.camera,
            extractedText := "", location := none, loading := true,
            saveStatus := none, copyStatus := none }
          RaceEvent.newAcquisitionReset)
        (RaceEvent.geoSuccessCallback ⟨4071, -7400⟩)).location =
      some ⟨4071, -7400⟩ :=
  ⟨rfl, rfl⟩

/-- C4 (confirmed): the stored coordinate is non-absent only when the
positioning query was reached (on android only after the capability was
granted; a denial skips the query) and the service reported a fix, which by
the passed options happens within the 10000 ms timeout tolerating a fix
cached up to 10000 ms; and for every input the run surfaces no alert,
completes (loading cleared last), and stores the recognition outcome
computed independently of the location inputs. -/
theorem c4_coordinate_requires_grant_and_fix (p : Platform) (g : Bool)
    (geo : GeoResult) (r : RecognizerResult) (c : Coord)
    (h : (processImageAndLocation p g geo r).2.location = some c) :
    geo = GeoResult.success c ∧ (p = Platform.android → g = true) ∧
    geoOptions.timeout = 10000 ∧ geoOptions.maximumAge = 10000 ∧
    (∀ p2 g2 geo2 r2,
      (processImageAndLocation p2 g2 geo2 r2).2.extractedText =
        extractedTextOfOcr r2 ∧
      (processImageAndLocation p2 g2 geo2 r2).2.alert = none ∧
      (processImageAndLocation p2 g2 geo2 r2).1.getLast? =
        some Event.setLoadingFalse) := by
  refine ⟨?_, ?_, rfl, rfl, ?_⟩
  · cases p <;> cases g <;> cases geo <;>
      simp_all [processImageAndLocation, locationPhase, geoPromiseRun]
  · intro hp
    subst hp
    cases g with
    | true => rfl
    | false =>
        simp [processImageAndLocation, locationPhase] at h
  · intro p2 g2 geo2 r2
    refine ⟨rfl, rfl, ?_⟩
    cases p2 <;> cases g2 <;> rfl

/-- C4 witness: a granted android run whose service reports a fix. -/
theorem c4_coordinate_requires_grant_and_fix_witness :
    GeoResult.success (⟨4071, -7400⟩ : Coord) = GeoResult.success ⟨4071, -7400⟩ ∧
    (Platform.android = Platform.android → true = true) ∧
    geoOptions.timeout = 10000 ∧ geoOptions.maximumAge = 10000 ∧
    (∀ p2 g2 geo2 r2,
      (processImageAndLocation p2 g2 geo2 r2).2.extractedText =
        extractedTextOfOcr r2 ∧
      (processImageAndLocation p2 g2 geo2 r2).2.alert = none ∧
      (processImageAndLocation p2 g2 geo2 r2).1.getLast? =
        some Event.setLoadingFalse) :=
  c4_coordinate_requires_grant_and_fix Platform.android true
    (GeoResult.success ⟨4071, -7400⟩) (RecognizerResult.ok (some "INVOICE"))
    ⟨4071, -7400⟩ rfl

/-- C5 (confirmed): on a denied capability both acquisition handlers end in
the AcquisitionFailed phase with the permission-denied alert, the chooser is
never invoked, processing never starts for any uri, and the state is left at
the cleared state. -/
theorem c5_denial_ends_failed_without_chooser (st : AppState)
    (resp : ChooserResponse) (g : Bool) (h : g = false) :
    (handleTakePhoto st Platform.android g resp).2.2 =
      AcqPhase.acquisitionFailed ∧
    firstIdx AcqStep.chooserInvoked
      (handleTakePhoto st Platform.android g resp).1 = none ∧
    (∀ uri, firstIdx (AcqStep.processingStarted uri)
      (handleTakePhoto st Platform.android g resp).1 = none) ∧
    (handleTakePhoto st Platform.android g resp).2.1 =
      resetAcquisitionState st ∧
    (handleSelectFromGallery st Platform.android g resp).2.2 =
      AcqPhase.acquisitionFailed ∧
    firstIdx AcqStep.chooserInvoked
      (handleSelectFromGallery st Platform.android g resp).1 = none ∧
    (∀ uri, firstIdx (AcqStep.processingStarted uri)
      (handleSelectFromGallery st Platform.android g resp).1 = none) ∧
    (handleSelectFromGallery st Platform.android g resp).2.1 =
      resetAcquisitionState st := by
  subst h
  exact ⟨rfl, rfl, fun _ => rfl, rfl, rfl, rfl, fun _ => rfl, rfl⟩

/-- C5 witness: denial at the initial state with a pending cancel response. -/
theorem c5_denial_ends_failed_without_chooser_witness :
    (handleTakePhoto initialState Platform.android false
        ChooserResponse.cancelled).2.2 = AcqPhase.acquisitionFailed ∧
    firstIdx AcqStep.chooserInvoked
      (handleTakePhoto initialState Platform.android false
        ChooserResponse.cancelled).1 = none ∧
    (∀ uri, firstIdx (AcqStep.processingStarted uri)
      (handleTakePhoto initialState Platform.android false
        ChooserResponse.cancelled).1 = none) ∧
    (handleTakePhoto initialState Platform.android false
        ChooserResponse.cancelled).2.1 = resetAcquisitionState initialState ∧
    (handleSelectFromGallery initialState Platform.android false
        ChooserResponse.cancelled).2.2 = AcqPhase.acquisitionFailed ∧
    firstIdx AcqStep.chooserInvoked
      (handleSelectFromGallery initialState Platform.android false
        ChooserResponse.cancelled).1 = none ∧
    (∀ uri, firstIdx (AcqStep.processingStarted uri)
      (handleSelectFromGallery initialState Platform.android false
        ChooserResponse.cancelled).1 = none) ∧
    (handleSelectFromGallery initialState Platform.android false
        ChooserResponse.cancelled).2.1 = resetAcquisitionState initialState :=
  c5_denial_ends_failed_without_chooser initialState
    ChooserResponse.cancelled false rfl

/-- C6 (confirmed): both acquisition handlers emit the state-clearing step
first, before the capability request and before any chooser invocation, and
the clearing step resets the previous record (image, provenance, extracted
text, coordinate) and both transient status flags. -/
theorem c6_acquisition_clears_state_first (st : AppState) (p : Platform)
    (g : Bool) (resp : ChooserResponse) :
    (handleTakePhoto st p g resp).1.head? = some AcqStep.clearedState ∧
    (handleSelectFromGallery st p g resp).1.head? =
      some AcqStep.clearedState ∧
    resetAcquisitionState st =
      { imageUri := none, imageSource := none, extractedText := "",
        location := none, loading := st.loading, saveStatus := none,
        copyStatus := none } := by
  refine ⟨?_, ?_, rfl⟩ <;> cases p <;> cases g <;> cases resp <;> rfl

/-- C6 witness: clearing-first evaluated at a state full of prior results. -/
theorem c6_acquisition_clears_state_first_witness :
    (handleTakePhoto
        { imageUri := some "file:old.jpg", imageSource := some Provenance.camera,
          extractedText := "OLD", location := some ⟨1, 2⟩, loading := false,
          saveStatus := some "saved", copyStatus := some "copied" }
        Platform.android true (ChooserResponse.assets "file:new.jpg")).1.head? =
      some AcqStep.clearedState ∧
    (handleSelectFromGallery
        { imageUri := some "file:old.jpg", imageSource := some Provenance.camera,
          extractedText := "OLD", location := some ⟨1, 2⟩, loading := false,
          saveStatus := some "saved", copyStatus := some "copied" }
        Platform.android true (ChooserResponse.assets "file:new.jpg")).1.head? =
      some AcqStep.clearedState ∧
    resetAcquisitionState
        { imageUri := some "file:old.jpg", imageSource := some Provenance.camera,
          extractedText := "OLD", location := some ⟨1, 2⟩, loading := false,
          saveStatus := some "saved", copyStatus := some "copied" } =
      { imageUri := none, imageSource := none, extractedText := "",
        location := none, loading := false, saveStatus := none,
        copyStatus := none } :=
  c6_acquisition_clears_state_first
    { imageUri := some "file:old.jpg", imageSource := some Provenance.camera,
      extractedText := "OLD", location := some ⟨1, 2⟩, loading := false,
      saveStatus := some "saved", copyStatus := some "copied" }
    Platform.android true (ChooserResponse.assets "file:new.jpg")

/-- C7 (code bug witnessed): in part_001 the run computes the new text HELLO
and a fresh fix, but the history entry it pushes reads the closure-captured
state variables (cleared to the empty string and null at acquisition start),
so the derived history entry disagrees with the values the same run just
computed. -/
theorem c7_history_entry_from_stale_state :
    (processImageAndLocationSr "file:img.jpg" "" none Platform.ios true
        (GeoResult.success ⟨4071, -7400⟩)
        (RecognizerResult.ok (some "HELLO")) 1700).extractedText = "HELLO" ∧
    (processImageAndLocationSr "file:img.jpg" "" none Platform.ios true
        (GeoResult.success ⟨4071, -7400⟩)
        (RecognizerResult.ok (some "HELLO")) 1700).location =
      some ⟨4071, -7400⟩ ∧
    (processImageAndLocationSr "file:img.jpg" "" none Platform.ios true
        (GeoResult.success ⟨4071, -7400⟩)
        (RecognizerResult.ok (some "HELLO")) 1700).historyEntry =
      { imageUri := "file:img.jpg", extractedText := "", location := none,
        timestamp := 1700 } ∧
    (processImageAndLocationSr "file:img.jpg" "" none Platform.ios true
        (GeoResult.success ⟨4071, -7400⟩)
        (RecognizerResult.ok (some "HELLO")) 1700).historyEntry.extractedText ≠
      (processImageAndLocationSr "file:img.jpg" "" none Platform.ios true
        (GeoResult.success ⟨4071, -7400⟩)
        (RecognizerResult.ok (some "HELLO")) 1700).extractedText ∧
    (processImageAndLocationSr "file:img.jpg" "" none Platform.ios true
        (GeoResult.success ⟨4071, -7400⟩)
        (RecognizerResult.ok (some "HELLO")) 1700).historyEntry.location ≠
      (processImageAndLocationSr "file:img.jpg" "" none Platform.ios true
        (GeoResult.success ⟨4071, -7400⟩)
        (RecognizerResult.ok (some "HELLO")) 1700).location := by
  decide

/-- C8 counterexample: at a concrete granted android run the recognition
start never precedes the positioning settle; positioning settles strictly
before recognition starts, so the two attempts are not launched
independently nor run concurrently. -/
theorem c8_counterexample_sequential_trace :
    eventBefore Event.ocrStarted Event.geoSettled
      (processImageAndLocation Platform.android true
        (GeoResult.success ⟨4071, -7400⟩)
        (RecognizerResult.ok (some "INVOICE"))).1 = false ∧
    eventBefore Event.geoSettled Event.ocrStarted
      (processImageAndLocation Platform.android true
        (GeoResult.success ⟨4071, -7400⟩)
        (RecognizerResult.ok (some "INVOICE"))).1 = true :=
  ⟨rfl, rfl⟩

/-- C8 (corrected): the two attempts are sequential, not concurrent: whenever
the positioning query runs it settles strictly before recognition starts,
recognition never starts before positioning settles, recognition is always
attempted and settles before the run finishes, and the final record carries
both outcomes, the recognition outcome being computed regardless of the
positioning inputs. -/
theorem c8_sequential_join (p : Platform) (g : Bool) (geo : GeoResult)
    (r : RecognizerResult) :
    eventBefore Event.geoSettled Event.ocrStarted
      (processImageAndLocation p g geo r).1 = geoQueried p g ∧
    eventBefore Event.ocrStarted Event.geoSettled
      (processImageAndLocation p g geo r).1 = false ∧
    (firstIdx Event.ocrStarted (processImageAndLocation p g geo r).1).isSome =
      true ∧
    eventBefore Event.ocrStarted Event.ocrSettled
      (processImageAndLocation p g geo r).1 = true ∧
    eventBefore Event.ocrSettled Event.setLoadingFalse
      (processImageAndLocation p g geo r).1 = true ∧
    (processImageAndLocation p g geo r).2.extractedText =
      extractedTextOfOcr r ∧
    (processImageAndLocation p g geo r).2.location =
      (locationPhase p g geo).2 := by
  cases p <;> cases g <;> exact ⟨rfl, rfl, rfl, rfl, rfl, rfl, rfl⟩

/-- C8 witness: the sequential-join facts at a concrete ios run. -/
theorem c8_sequential_join_witness :
    eventBefore Event.geoSettled Event.ocrStarted
      (processImageAndLocation Platform.ios true GeoResult.failure
        (RecognizerResult.error none)).1 = geoQueried Platform.ios true ∧
    eventBefore Event.ocrStarted Event.geoSettled
      (processImageAndLocation Platform.ios true GeoResult.failure
        (RecognizerResult.error none)).1 = false ∧
    (firstIdx Event.ocrStarted
      (processImageAndLocation Platform.ios true GeoResult.failure
        (RecognizerResult.error none)).1).isSome = true ∧
    eventBefore Event.ocrStarted Event.ocrSettled
      (processImageAndLocation Platform.ios true GeoResult.failure
        (RecognizerResult.error none)).1 = true ∧
    eventBefore Event.ocrSettled Event.setLoadingFalse
      (processImageAndLocation Platform.ios true GeoResult.failure
        (RecognizerResult.error none)).1 = true ∧
    (processImageAndLocation Platform.ios true GeoResult.failure
      (RecognizerResult.error none)).2.extractedText =
      extractedTextOfOcr (RecognizerResult.error none) ∧
    (processImageAndLocation Platform.ios true GeoResult.failure
      (RecognizerResult.error none)).2.location =
      (locationPhase Platform.ios true GeoResult.failure).2 :=
  c8_sequential_join Platform.ios true GeoResult.failure
    (RecognizerResult.error none)

/-- C9 counterexample: two export calls on the unchanged record that observe
the same Date.now() millisecond produce the same path, so the claim that any
two calls write distinct names (neither overwriting the other) fails. -/
theorem c9_counterexample_same_millisecond :
    handleSaveTextToFile Platform.ios "/docs" none true "HELLO"
        1700000000000 =
      some { path := "/docs/ocr_result_1700000000000.txt", content := "HELLO",
             encoding := "utf8" } ∧
    ¬ (∀ t1 t2 : Nat, ∀ w1 w2 : FileWrite,
        handleSaveTextToFile Platform.ios "/docs" none true "HELLO" t1 =
          some w1 →
        handleSaveTextToFile Platform.ios "/docs" none true "HELLO" t2 =
          some w2 →
        w1.path ≠ w2.path) := by
  constructor
  · decide
  · intro hall
    exact hall 1700000000000 1700000000000
      { path := "/docs/ocr_result_1700000000000.txt", content := "HELLO",
        encoding := "utf8" }
      { path := "/docs/ocr_result_1700000000000.txt", content := "HELLO",
        encoding := "utf8" }
      (by decide) (by decide) rfl

/-- C9 (corrected, amended): every performed export writes one utf8 file whose
name embeds the current Date.now() in the pattern ocr_result_(epoch-ms).txt
under the resolved directory, and two calls on an unchanged record whose
Date.now() values differ write files with distinct paths; only same-millisecond
calls collide. -/
theorem c9_export_unique_paths (p : Platform) (docDir : String)
    (downloadDir : Option String) (writeGranted : Bool) (text : String)
    (t1 t2 : Nat) (w1 w2 : FileWrite)
    (h1 : handleSaveTextToFile p docDir downloadDir writeGranted text t1 =
      some w1)
    (h2 : handleSaveTextToFile p docDir downloadDir writeGranted text t2 =
      some w2)
    (hne : t1 ≠ t2) :
    w1.encoding = "utf8" ∧ w2.encoding = "utf8" ∧
    w1.content = text ∧ w2.content = text ∧
    exportFileName t1 = "ocr_result_" ++ natDecimal t1 ++ ".txt" ∧
    (∃ dir, w1.path = dir ++ "/" ++ exportFileName t1 ∧
            w2.path = dir ++ "/" ++ exportFileName t2) ∧
    w1.path ≠ w2.path := by
  by_cases hguard : textActionAllowed text = true
  · simp only [handleSaveTextToFile, hguard, if_true] at h1 h2
    cases hdir : exportDir p docDir downloadDir writeGranted with
    | none =>
        rw [hdir] at h1
        cases h1
    | some dir =>
        rw [hdir] at h1 h2
        have hw1 := (Option.some.inj h1).symm
        have hw2 := (Option.some.inj h2).symm
        subst hw1
        subst hw2
        refine ⟨rfl, rfl, rfl, rfl, rfl, ⟨dir, rfl, rfl⟩, ?_⟩
        intro hpath
        exact hne (exportPath_inj dir t1 t2 hpath)
  · simp only [handleSaveTextToFile, hguard, if_false] at h1
    cases h1

/-- C9 witness: two exports of the same record one millisecond apart. -/
theorem c9_export_unique_paths_witness :
    ({ path := "/docs/ocr_result_1700000000000.txt", content := "HELLO",
       encoding := "utf8" } : FileWrite).encoding = "utf8" ∧
    ({ path := "/docs/ocr_result_1700000000001.txt", content := "HELLO",
       encoding := "utf8" } : FileWrite).encoding = "utf8" ∧
    ({ path := "/docs/ocr_result_1700000000000.txt", content := "HELLO",
       encoding := "utf8" } : FileWrite).content = "HELLO" ∧
    ({ path := "/docs/ocr_result_1700000000001.txt", content := "HELLO",
       encoding := "utf8" } : FileWrite).content = "HELLO" ∧
    exportFileName 1700000000000 =
      "ocr_result_" ++ natDecimal 1700000000000 ++ ".txt" ∧
    (∃ dir,
      ({ path := "/docs/ocr_result_1700000000000.txt", content := "HELLO",
         encoding := "utf8" } : FileWrite).path =
        dir ++ "/" ++ exportFileName 1700000000000 ∧
      ({ path := "/docs/ocr_result_1700000000001.txt", content := "HELLO",
         encoding := "utf8" } : FileWrite).path =
        dir ++ "/" ++ exportFileName 1700000000001) ∧
    ({ path := "/docs/ocr_result_1700000000000.txt", content := "HELLO",
       encoding := "utf8" } : FileWrite).path ≠
      ({ path := "/docs/ocr_result_1700000000001.txt", content := "HELLO",
         encoding := "utf8" } : FileWrite).path :=
  c9_export_unique_paths Platform.ios "/docs" none true "HELLO"
    1700000000000 1700000000001
    { path := "/docs/ocr_result_1700000000000.txt", content := "HELLO",
      encoding := "utf8" }
    { path := "/docs/ocr_result_1700000000001.txt", content := "HELLO",
      encoding := "utf8" }
    (by decide) (by decide) (by decide)

/-- C10 (confirmed): the promise wrapped around the positioning query resolves
on both callbacks and never rejects, so the positioning phase settles normally
for every reported result and the recognition phase is reached in every run. -/
theorem c10_geo_promise_always_resolves (geo : GeoResult) :
    (geoPromiseRun geo).1 = PromiseSettle.resolved ∧
    (geoPromiseRun geo).1 ≠ PromiseSettle.rejected ∧
    (∀ p g r, (firstIdx Event.ocrStarted
      (processImageAndLocation p g geo r).1).isSome = true) := by
  refine ⟨?_, ?_, ?_⟩
  · cases geo <;> rfl
  · cases geo <;> simp [geoPromiseRun]
  · intro p g r
    cases p <;> cases g <;> rfl

/-- C10 witness: the resolution facts at the error callback. -/
theorem c10_geo_promise_always_resolves_witness :
    (geoPromiseRun GeoResult.failure).1 = PromiseSettle.resolved ∧
    (geoPromiseRun GeoResult.failure).1 ≠ PromiseSettle.rejected ∧
    (∀ p g r, (firstIdx Event.ocrStarted
      (processImageAndLocation p g GeoResult.failure r).1).isSome = true) :=
  c10_geo_promise_always_resolves GeoResult.failure

end BasicOCR
